import Mathlib

/-!
Shallow embedding of the ConcurrentHarmony supervision framework
(src/processor.py, src/runner.py, src/loop_processor.py,
src/log/log_queue_stream_processor.py, src/log/log_manager.py,
src/signals/multiproc_user_signals.py) and proofs of the spec claims.

multiprocessing.Event objects are modelled as identifiers (Nat); an
EventStore maps each identifier to its current boolean value.
-/

namespace ConcurrentHarmony

/-- Shared store of multiprocessing.Event values, indexed by event id. -/
def EventStore := Nat → Bool

/-- Event.set(): flip the given event to True. -/
def EventStore.set (st : EventStore) (e : Nat) : EventStore :=
  fun i => if i = e then true else st i

/-- Event.is_set(). -/
def EventStore.is_set (st : EventStore) (e : Nat) : Bool := st e

/-- State of src/processor.py Processor: the optional stop event and the
private fallback flag used when no event is attached. -/
structure Processor where
  stop_event : Option Nat
  stop_me_if_event_is_not_defined : Bool
deriving DecidableEq

/-- Processor.__init__ : stop_event as given, fallback flag False. -/
def Processor.init (stop_event : Option Nat) : Processor :=
  { stop_event := stop_event, stop_me_if_event_is_not_defined := false }

/-- Processor.set_stop_event: sets the stop event only if none is attached;
returns True iff the assignment was applied. -/
def Processor.set_stop_event (p : Processor) (stop_event : Nat) : Processor × Bool :=
  match p.stop_event with
  | none => ({ p with stop_event := some stop_event }, true)
  | some _ => (p, false)

/-- Processor.set_stop_event_to_stop: set the shared event, or the private
fallback flag when no event is attached. -/
def Processor.set_stop_event_to_stop (p : Processor) (st : EventStore) :
    Processor × EventStore :=
  match p.stop_event with
  | some e => (p, st.set e)
  | none => ({ p with stop_me_if_event_is_not_defined := true }, st)

/-- Processor._is_stopped. -/
def Processor.is_stopped (p : Processor) (st : EventStore) : Bool :=
  match p.stop_event with
  | none => p.stop_me_if_event_is_not_defined
  | some e => st e

/-- Observable steps of Processor.run (src/processor.py lines 119-129). -/
inductive RunEv
  | init_logging
  | before_body
  | run_body
  | raised
  | after_body
  | stop_propagated
deriving DecidableEq

/-- Result of Processor.run: the trace of executed steps, the processor state
and the event store after run returns (or after the exception is re-raised). -/
structure RunResult where
  trace : List RunEv
  self : Processor
  events : EventStore

/-- Processor.run: try \x7b init_logging; before_body; run_body \x7d
finally \x7b after_body; set_stop_event_to_stop \x7d.  The hooks are
parameterised by whether they raise; the base-class after_body is `pass`. -/
def Processor.run (p : Processor) (st : EventStore)
    (before_raises run_body_raises : Bool) : RunResult :=
  let try_trace :=
    [RunEv.init_logging] ++
      (if before_raises then [RunEv.raised]
       else
        [RunEv.before_body] ++
          (if run_body_raises then [RunEv.raised] else [RunEv.run_body]))
  let (p1, st1) := p.set_stop_event_to_stop st
  { trace := try_trace ++ [RunEv.after_body, RunEv.stop_propagated],
    self := p1, events := st1 }

/-- State of src/runner.py ProcessorsRunner relevant to the task-handle
lifecycle: the Processor base and the _workers / _tasks lists.  Children are
abstract (identified by Nat); they run in their own tasks, so their effects do
not touch the runner's own state. -/
structure ProcessorsRunnerState where
  base : Processor
  workers : List Nat
  tasks : List Nat
deriving DecidableEq

/-- ProcessorsRunner.__init__ (token wiring aside): _tasks starts empty. -/
def ProcessorsRunnerState.init (stop_event : Option Nat) (workers : List Nat) :
    ProcessorsRunnerState :=
  { base := Processor.init stop_event, workers := workers, tasks := [] }

/-- ProcessorsRunner._get_tasks: one task handle per worker, in order
(each worker also gets the multitasking type tag, which is irrelevant here). -/
def ProcessorsRunnerState.get_tasks (r : ProcessorsRunnerState) : List Nat :=
  r.workers.map (fun w => w)

/-- Result of ProcessorsRunner.run. -/
structure RunnerRunResult where
  tasks_during_join : Nat
  self : ProcessorsRunnerState
  events : EventStore

/-- ProcessorsRunner._run_body (runner.py lines 77-85): populate _tasks with
one handle per worker, start and join them all, finally set the stop event.
Returns the length of _tasks during _run_all/_join_all, the state and the
store afterwards.  Note the method never resets _tasks to []. -/
def ProcessorsRunnerState.run_body (r : ProcessorsRunnerState) (st : EventStore) :
    Nat × ProcessorsRunnerState × EventStore :=
  let r1 := { r with tasks := r.get_tasks }
  let during := r1.tasks.length
  let (b, st1) := r1.base.set_stop_event_to_stop st
  (during, { r1 with base := b }, st1)

/-- ProcessorsRunner.run is the inherited Processor.run with _run_body as
above; the outer finally performs _after_body (pass in the base class) and one
more set_stop_event_to_stop. -/
def ProcessorsRunnerState.run (r : ProcessorsRunnerState) (st : EventStore) :
    RunnerRunResult :=
  let (during, r1, st1) := r.run_body st
  let (b2, st2) := r1.base.set_stop_event_to_stop st1
  { tasks_during_join := during, self := { r1 with base := b2 }, events := st2 }

/-- State of src/loop_processor.py LoopProcessor. -/
structure LoopProcessor where
  base : Processor
  start_active : Bool
  is_active : Bool
  is_waiting_event : Option Nat
  is_waiting_if_waiting_event_is_not_defined : Bool
deriving DecidableEq

/-- LoopProcessor.__init__. -/
def LoopProcessor.init (stop_event is_waiting_event : Option Nat)
    (start_active : Bool) : LoopProcessor :=
  { base := Processor.init stop_event,
    start_active := start_active,
    is_active := true,
    is_waiting_event := is_waiting_event,
    is_waiting_if_waiting_event_is_not_defined := !start_active }

/-- LoopProcessor.set_waiting_event: first assignment wins. -/
def LoopProcessor.set_waiting_event (l : LoopProcessor) (e : Nat) : LoopProcessor :=
  match l.is_waiting_event with
  | none => { l with is_waiting_event := some e }
  | some _ => l

/-- LoopProcessor._new_activity_state. -/
def LoopProcessor.new_activity_state (l : LoopProcessor) (st : EventStore) : Bool :=
  match l.is_waiting_event with
  | none => !l.is_waiting_if_waiting_event_is_not_defined
  | some e => !(st e)

/-- LoopProcessor._react_if_activity_changes: flips _is_active and fires
exactly one edge hook when the computed activity differs from the stored one.
Returns the new state, whether _became_active fired, whether _became_inactive
fired. -/
def LoopProcessor.react_if_activity_changes (l : LoopProcessor) (is_active : Bool) :
    LoopProcessor × Bool × Bool :=
  if is_active != l.is_active then
    ({ l with is_active := is_active }, is_active, !is_active)
  else (l, false, false)

/-- Per-iteration environment of the loop in LoopProcessor.run: the event
store observed by this iteration's reads and whether the _work_in_loop /
_wait_in_loop hooks raise. -/
structure LoopEnv where
  store : EventStore
  work_raises : Bool
  wait_raises : Bool

/-- What one loop iteration did. -/
structure IterHooks where
  became_active : Bool
  became_inactive : Bool
  called_work : Bool
  called_wait : Bool
  work_error_logged : Bool
deriving DecidableEq

/-- The while-loop of LoopProcessor.run (loop_processor.py lines 125-135).
A _work_in_loop exception is caught by the try inside the loop (error logged,
loop continues); _wait_in_loop is not guarded there, so its exception escapes
to the except of lines 136-138, ending the loop (second component true). -/
def LoopProcessor.loop (l : LoopProcessor) :
    List LoopEnv → List IterHooks × Bool × LoopProcessor
  | [] => ([], false, l)
  | env :: rest =>
    if l.base.is_stopped env.store then ([], false, l)
    else
      let a := l.new_activity_state env.store
      let (l1, ba, bi) := l.react_if_activity_changes a
      if l1.is_active then
        let hooks : IterHooks :=
          { became_active := ba, became_inactive := bi,
            called_work := true, called_wait := false,
            work_error_logged := env.work_raises }
        let (hs, err, l2) := l1.loop rest
        (hooks :: hs, err, l2)
      else
        let hooks : IterHooks :=
          { became_active := ba, became_inactive := bi,
            called_work := false, called_wait := true,
            work_error_logged := false }
        if env.wait_raises then ([hooks], true, l1)
        else
          let (hs, err, l2) := l1.loop rest
          (hooks :: hs, err, l2)

/-- Result of LoopProcessor.run (lines 114-146). -/
structure LoopRunResult where
  startup_became_active : Bool
  iters : List IterHooks
  run_error_logged : Bool
  stop_propagated : Bool
  after_body_ran : Bool
  self : LoopProcessor
  events : EventStore

/-- LoopProcessor.run: START banner, _before_body, _is_active := False, an
initial _react_if_activity_changes(True) when start_active, then the loop.
The except of lines 136-138 catches anything escaping the loop (so run never
raises), and the finally block always performs
_set_stop_event_to_stop_and_log_it and _after_body.  The final token write
applies to the store `st`. -/
def LoopProcessor.run (l : LoopProcessor) (envs : List LoopEnv) (st : EventStore) :
    LoopRunResult :=
  let l0 := { l with is_active := false }
  let (l1, start_ba, _) :=
    if l.start_active then l0.react_if_activity_changes true else (l0, false, false)
  let (iters, run_err, l2) := l1.loop envs
  let (b, st1) := l2.base.set_stop_event_to_stop st
  { startup_became_active := start_ba, iters := iters, run_error_logged := run_err,
    stop_propagated := true, after_body_ran := true,
    self := { l2 with base := b }, events := st1 }

/-- Environment used in the loop error-handling analysis: stop event 0 clear,
waiting event 1 set (the worker is to wait), with a choice whether
_wait_in_loop raises. -/
def pausedEnv (wait_raises : Bool) : LoopEnv :=
  { store := fun i => if i = 1 then true else false,
    work_raises := false, wait_raises := wait_raises }

/-- Drain-relevant state of src/log/log_queue_stream_processor.py
LogQueueStreamProcessor.  Monotonic time is modelled as Int. -/
structure LogQueueStreamProcessor where
  near_to_stop : Bool
  really_stop : Bool
  sleep_after_s : Int
  last_msg_send_time : Option Int
deriving DecidableEq

/-- LogQueueStreamProcessor.__init__ with the given grace window
(wait_after_life_for_a_message, default 0.1 s in the source). -/
def LogQueueStreamProcessor.init (wait_after_life_for_a_message : Int) :
    LogQueueStreamProcessor :=
  { near_to_stop := false, really_stop := false,
    sleep_after_s := wait_after_life_for_a_message, last_msg_send_time := none }

/-- What self.__queue.get returned this iteration: a real log record, the
None value put by LogManager.stop_logging, or the Empty exception raised
after the poll timeout. -/
inductive PollResult
  | record
  | none_record
  | empty
deriving DecidableEq

/-- LogQueueStreamProcessor._work_in_loop (lines 60-79).  For a record,
handle() succeeds and, when draining, _last_msg_send_time is reset to the
current time.  For the None value, logger.handle(None) raises (None has no
record attributes) before the timestamp update; the exception is caught by
the generic except of lines 77-79, an error is logged and the state is left
untouched.  For Empty, when draining, _really_stop is set once the time
since the last drained message exceeds the grace window; the none branch of
the timestamp (unreachable while draining, since _is_stopped initializes it)
models the TypeError of a None subtraction escaping to the loop-level catch.
Returns (state, handled_a_record, error_logged). -/
def LogQueueStreamProcessor.work_in_loop (s : LogQueueStreamProcessor)
    (poll : PollResult) (now : Int) : LogQueueStreamProcessor × Bool × Bool :=
  match poll with
  | .record =>
    (if s.near_to_stop then { s with last_msg_send_time := some now } else s,
     true, false)
  | .none_record => (s, false, true)
  | .empty =>
    if s.near_to_stop then
      match s.last_msg_send_time with
      | some last =>
        if now - last > s.sleep_after_s then
          ({ s with really_stop := true }, false, false)
        else (s, false, false)
      | none => (s, false, true)
    else (s, false, false)

/-- LogQueueStreamProcessor._is_stopped (lines 81-91): on first observing the
global stop request enter the draining sub-state and initialize the
last-message timestamp; the returned exit decision is _really_stop. -/
def LogQueueStreamProcessor.is_stopped (s : LogQueueStreamProcessor)
    (global_stop : Bool) (now : Int) : LogQueueStreamProcessor × Bool :=
  if global_stop then
    if !s.near_to_stop then
      ({ s with near_to_stop := true, last_msg_send_time := some now },
       s.really_stop)
    else (s, s.really_stop)
  else (s, s.really_stop)

/-- One drain-loop iteration as seen from the environment: the shared stop
event value, the monotonic time at the _is_stopped call, the poll outcome,
and the monotonic time right after queue.get resolves. -/
structure DrainObs where
  global_stop : Bool
  t_check : Int
  poll : PollResult
  t_poll : Int

/-- The while-loop of LoopProcessor.run as specialized by
LogQueueStreamProcessor (the worker stays active; no pause event is involved
in draining): check _is_stopped, exit on True, otherwise one _work_in_loop.
Returns the per-iteration (state, handled, error_logged) records, whether the
loop exited via _really_stop, and the final state. -/
def LogQueueStreamProcessor.drain (s : LogQueueStreamProcessor) :
    List DrainObs →
      List (LogQueueStreamProcessor × Bool × Bool) × Bool × LogQueueStreamProcessor
  | [] => ([], false, s)
  | o :: rest =>
    let s1 := (s.is_stopped o.global_stop o.t_check).1
    if (s.is_stopped o.global_stop o.t_check).2 then ([], true, s1)
    else
      let s2 := (s1.work_in_loop o.poll o.t_poll).1
      let handled := (s1.work_in_loop o.poll o.t_poll).2.1
      let err := (s1.work_in_loop o.poll o.t_poll).2.2
      ((s2, handled, err) :: (s2.drain rest).1,
       (s2.drain rest).2.1, (s2.drain rest).2.2)

/-- First-wins assignment performed by Processor.set_stop_event and
LoopProcessor.set_waiting_event during wiring: a parent event (when the
parent has one) is taken only by a child that has none. -/
def firstWins (cur parent : Option Nat) : Option Nat :=
  match parent with
  | none => cur
  | some v =>
    match cur with
    | none => some v
    | some c => some c

/-- Worker tree as seen by ProcessorsRunner.set_events_to_processors: plain
Processors, LoopProcessors (which also carry a waiting-event slot) and nested
ProcessorsRunners (Processors but not LoopProcessors). -/
inductive PWorker
  | processor (stop_event : Option Nat)
  | loop_processor (stop_event : Option Nat) (is_waiting_event : Option Nat)
  | runner (stop_event : Option Nat) (is_waiting_event : Option Nat)
      (workers : List PWorker)

mutual
/-- Treatment of one child in the loop of set_events_to_processors
(runner.py lines 47-62), given the wiring runner's events: a LoopProcessor
child receives the waiting event, every Processor child receives the stop
event (both first-wins), and a nested runner afterwards recursively wires its
own children using its own — just updated — stop event and its own waiting
event. -/
def PWorker.wire (parent_stop parent_waiting : Option Nat) : PWorker → PWorker
  | .processor st => .processor (firstWins st parent_stop)
  | .loop_processor st wt =>
    .loop_processor (firstWins st parent_stop) (firstWins wt parent_waiting)
  | .runner st wt cs =>
    .runner (firstWins st parent_stop) wt
      (PWorker.wireList (firstWins st parent_stop) wt cs)

/-- The for-loop of set_events_to_processors over the workers list. -/
def PWorker.wireList (s w : Option Nat) : List PWorker → List PWorker
  | [] => []
  | c :: cs => c.wire s w :: PWorker.wireList s w cs
end

/-- ProcessorsRunner.set_events_to_processors called on a runner: wires all
its children with its own events. -/
def PWorker.set_events_to_processors : PWorker → PWorker
  | .runner st wt cs => .runner st wt (PWorker.wireList st wt cs)
  | w => w

/-- The stop event held by a worker. -/
def PWorker.stop_ev : PWorker → Option Nat
  | .processor st => st
  | .loop_processor st _ => st
  | .runner st _ _ => st

/-- The waiting event held by a worker (plain Processors have none). -/
def PWorker.waiting_ev : PWorker → Option Nat
  | .processor _ => none
  | .loop_processor _ wt => wt
  | .runner _ wt _ => wt

/-- The children of a worker (non-runners have none). -/
def PWorker.children : PWorker → List PWorker
  | .runner _ _ cs => cs
  | _ => []

/-- Allocator for multiprocessing.Event objects: models which expressions
create a new Event. -/
structure PyAlloc where
  next_event : Nat

/-- multiprocessing.Event(): a fresh event id. -/
def newEvent (a : PyAlloc) : Nat × PyAlloc :=
  (a.next_event, { next_event := a.next_event + 1 })

/-- Import of src/runner.py: Python evaluates the default-argument
expression of ProcessorsRunner.__init__ (is_waiting_event =
multiprocessing.Event()) exactly once, when the def statement of the class
body executes — this is the single Event shared by every construction that
omits the argument. -/
def runnerClassDefault (a : PyAlloc) : Nat × PyAlloc := newEvent a

/-- ProcessorsRunner.__init__ as a PWorker constructor: a call without an
explicit is_waiting_event argument uses the class-definition-time default
event and allocates nothing; __init__ ends by calling
set_events_to_processors. -/
def processorsRunnerNew (default_waiting : Nat) (stop_event : Option Nat)
    (is_waiting_event_arg : Option Nat) (workers : List PWorker) : PWorker :=
  PWorker.set_events_to_processors
    (PWorker.runner stop_event
      (some (match is_waiting_event_arg with
             | some e => e
             | none => default_waiting))
      workers)

/-- Observable actions of the mailbox protocol of
src/signals/multiproc_user_signals.py on the context file and the target
process. -/
inductive SigEv
  | open_write
  | open_read
  | lock_exclusive
  | unlock
  | read_all
  | remove_file
  | write_bytes (data : List Nat)
  | close_file
  | kill (pid : Nat) (signum : Nat)
deriving DecidableEq

/-- signal.SIGUSR1, the common doorbell signal (its Linux number). -/
def COMMON_SIGNAL : Nat := 10

/-- SignalContext.get_struct_format: the byte width of the struct code chosen
for the id range — math.ceil(math.log2(range_max + 1)) bits rounded up to
B=1, H=2, I=4 or Q=8 bytes; none models the ValueError for ranges beyond 64
bits. -/
def get_struct_format (range_max : Nat) : Option Nat :=
  let nb := Nat.clog 2 (range_max + 1)
  if nb ≤ 8 then some 1
  else if nb ≤ 16 then some 2
  else if nb ≤ 32 then some 4
  else if nb ≤ 64 then some 8
  else none

/-- struct.pack of an unsigned fixed-width value in native (little-endian)
byte order. -/
def packBytes (width sid : Nat) : List Nat :=
  (List.range width).map (fun i => sid / 256 ^ i % 256)

/-- struct.unpack: raises (modelled as none) unless the data has exactly the
expected width. -/
def unpackBytes (width : Nat) (data : List Nat) : Option Nat :=
  if data.length = width then
    some (data.foldr (fun b acc => acc * 256 + b) 0)
  else none

/-- A SignalContext after __init__: the mailbox file name (in the OS temp
directory) and the struct width chosen for the id range. -/
structure SignalContext where
  filename : String
  struct_format : Nat

/-- SignalContext.__init__ for a context name and the length of its signal
enumeration; fails (ValueError) when get_struct_format does. -/
def SignalContext.mk_ctx (context_name : String) (signals_len : Nat) :
    Option SignalContext :=
  match get_struct_format signals_len with
  | some w =>
    some { filename := context_name ++ ".signal_context", struct_format := w }
  | none => none

/-- The mailbox resource: the file's bytes, or none when the file is absent. -/
def Mailbox := Option (List Nat)

/-- Result of a mailbox write: the performed actions and the file afterwards. -/
structure SigStep where
  trace : List SigEv
  mailbox : Mailbox

/-- SignalContext.set_signal_id (lines 87-92): open the mailbox file for
writing (create or truncate) and write the packed id.  No lock is taken on
this path. -/
def SignalContext.set_signal_id (ctx : SignalContext) (_mb : Mailbox)
    (sid : Nat) : SigStep :=
  { trace := [SigEv.open_write,
      SigEv.write_bytes (packBytes ctx.struct_format sid), SigEv.close_file],
    mailbox := some (packBytes ctx.struct_format sid) }

/-- SignalContext.send_user_signal (lines 94-99): set_signal_id, then
os.kill of the doorbell signal on the target pid. -/
def SignalContext.send_user_signal (ctx : SignalContext) (mb : Mailbox)
    (pid sid : Nat) : SigStep :=
  let w := ctx.set_signal_id mb sid
  { trace := w.trace ++ [SigEv.kill pid COMMON_SIGNAL], mailbox := w.mailbox }

/-- Result of a mailbox read. -/
structure GetResult where
  trace : List SigEv
  mailbox : Mailbox
  ret_val : Option Nat

/-- SignalContext.get_signal (lines 70-85): when the file exists, lock it
exclusively, read the bytes, delete the file before unlocking, then unpack;
the outer try/finally returns ret_val unconditionally, so any exception —
missing file on open, unpack size mismatch — yields none instead of
propagating. -/
def SignalContext.get_signal (ctx : SignalContext) (mb : Mailbox) : GetResult :=
  match mb with
  | none => { trace := [SigEv.open_read], mailbox := none, ret_val := none }
  | some data =>
    { trace := [SigEv.open_read, SigEv.lock_exclusive, SigEv.read_all,
        SigEv.remove_file, SigEv.unlock, SigEv.close_file],
      mailbox := none,
      ret_val := unpackBytes ctx.struct_format data }

/-- UserSignalConsumerProcessor.on_common_signal (lines 129-136): consume the
mailbox via get_signal and dispatch (user_signal, common_signal) to
on_user_signal only when a value was read. -/
def on_common_signal (ctx : SignalContext) (mb : Mailbox)
    (common_signal_id : Nat) : GetResult × Option (Nat × Nat) :=
  let g := ctx.get_signal mb
  match g.ret_val with
  | none => (g, none)
  | some u => (g, some (u, common_signal_id))

/-- Left-to-right scan checking that every write event occurs while the
exclusive lock is held. -/
def writesLocked : List SigEv → Bool → Bool
  | [], _ => true
  | SigEv.lock_exclusive :: tr, _ => writesLocked tr true
  | SigEv.unlock :: tr, _ => writesLocked tr false
  | SigEv.write_bytes _ :: tr, held => held && writesLocked tr held
  | _ :: tr, held => writesLocked tr held

/-- The context built by SignalContext() with the default name and the
two-member UserSignals enumeration. -/
def defaultCtx : SignalContext :=
  { filename := "default.signal_context", struct_format := 1 }

end ConcurrentHarmony

namespace ConcurrentHarmony

/-- C2: For every Worker (Processor), whatever its beforeBody/runBody hooks do
(return normally or raise), run() guarantees that afterBody runs and that the
cancellation token (or the private fallback flag when no token is attached) is
set to requested by the time run() ends, in success and in failure alike. -/
theorem processor_run_cleanup (p : Processor) (st : EventStore)
    (before_raises run_body_raises : Bool) :
    RunEv.after_body ∈ (p.run st before_raises run_body_raises).trace ∧
    (∀ e, p.stop_event = some e →
      (p.run st before_raises run_body_raises).events e = true) ∧
    (p.stop_event = none →
      (p.run st before_raises run_body_raises).self.stop_me_if_event_is_not_defined = true) := by
  refine ⟨?_, ?_, ?_⟩
  · simp [Processor.run]
  · intro e he
    simp [Processor.run, Processor.set_stop_event_to_stop, he, EventStore.set]
  · intro he
    simp [Processor.run, Processor.set_stop_event_to_stop, he]

/-- Witness for C2: a concrete processor with stop event 0, both hooks raising. -/
theorem processor_run_cleanup_witness :
    RunEv.after_body ∈ ((Processor.init (some 0)).run (fun _ => false) true true).trace ∧
    ((Processor.init (some 0)).run (fun _ => false) true true).events 0 = true := by
  have h := processor_run_cleanup (Processor.init (some 0)) (fun _ => false) true true
  exact ⟨h.1, h.2.1 0 rfl⟩

/-- C1 counterexample: a SupervisorTree with stop event 0 and a single child;
after run() returns, the task-handle list is not empty (the claim says it is
empty again after run() returns). -/
theorem runner_tasks_not_cleared_after_run :
    (((ProcessorsRunnerState.init (some 0) [7]).run (fun _ => false)).self.tasks).isEmpty
      = false := by
  rfl

/-- C1 (amended): for every SupervisorTree (ProcessorsRunner), the task-handle
list is empty before run() starts and holds exactly one handle per child while
run() is executing, but after run() returns it still holds exactly one handle
per child (the code never clears _tasks); and after run() the tree's
cancellation token (if any) reports requested=true. -/
theorem runner_task_handles_and_stop (stop_event : Option Nat)
    (workers : List Nat) (st : EventStore) :
    (ProcessorsRunnerState.init stop_event workers).tasks = [] ∧
    ((ProcessorsRunnerState.init stop_event workers).run st).tasks_during_join
      = workers.length ∧
    (((ProcessorsRunnerState.init stop_event workers).run st).self.tasks).length
      = workers.length ∧
    (∀ e, stop_event = some e →
      ((ProcessorsRunnerState.init stop_event workers).run st).events e = true) := by
  refine ⟨rfl, ?_, ?_, ?_⟩
  · simp [ProcessorsRunnerState.run, ProcessorsRunnerState.run_body,
      ProcessorsRunnerState.init, ProcessorsRunnerState.get_tasks,
      Processor.set_stop_event_to_stop, Processor.init]
  · cases stop_event <;>
      simp [ProcessorsRunnerState.run, ProcessorsRunnerState.run_body,
        ProcessorsRunnerState.init, ProcessorsRunnerState.get_tasks,
        Processor.set_stop_event_to_stop, Processor.init]
  · intro e he
    subst he
    simp [ProcessorsRunnerState.run, ProcessorsRunnerState.run_body,
      ProcessorsRunnerState.init, Processor.set_stop_event_to_stop,
      Processor.init, EventStore.set]

/-- Witness for C1 (amended): a concrete runner with stop event 0 and two
children. -/
theorem runner_task_handles_and_stop_witness :
    (ProcessorsRunnerState.init (some 0) [5, 6]).tasks = [] ∧
    ((ProcessorsRunnerState.init (some 0) [5, 6]).run (fun _ => false)).tasks_during_join
      = 2 ∧
    ((ProcessorsRunnerState.init (some 0) [5, 6]).run (fun _ => false)).events 0
      = true := by
  have h := runner_task_handles_and_stop (some 0) [5, 6] (fun _ => false)
  exact ⟨h.1, h.2.1, h.2.2.2 0 rfl⟩

/-- The method _react_if_activity_changes is a no-op (no hook fires) when the computed
activity equals the stored one. -/
lemma react_no_change (l : LoopProcessor) (a : Bool) (h : a = l.is_active) :
    l.react_if_activity_changes a = (l, false, false) := by
  simp [LoopProcessor.react_if_activity_changes, h]

/-- While the waiting event stays set and the worker is already inactive,
every loop iteration waits: no edge hook fires and _work_in_loop is never
called. -/
lemma loop_all_waiting (l : LoopProcessor) (w : Nat) (envs : List LoopEnv)
    (hw : l.is_waiting_event = some w) (hinact : l.is_active = false)
    (henv : ∀ e ∈ envs, e.store w = true) :
    ∀ h ∈ (l.loop envs).1,
      h.became_inactive = false ∧ h.became_active = false ∧ h.called_work = false := by
  induction envs generalizing l with
  | nil => simp [LoopProcessor.loop]
  | cons env rest ih =>
    intro h hh
    rw [LoopProcessor.loop] at hh
    by_cases hs : l.base.is_stopped env.store = true
    · simp [hs] at hh
    · rw [Bool.not_eq_true] at hs
      have ha : l.new_activity_state env.store = false := by
        simp [LoopProcessor.new_activity_state, hw, henv env (by simp)]
      rw [hs] at hh
      simp only [Bool.false_eq_true, if_false] at hh
      rw [ha, react_no_change l false hinact.symm] at hh
      simp only [hinact, Bool.false_eq_true, if_false] at hh
      by_cases hwr : env.wait_raises = true
      · simp only [hwr, if_true] at hh
        simp at hh
        subst hh
        exact ⟨rfl, rfl, rfl⟩
      · rw [Bool.not_eq_true] at hwr
        simp only [hwr, Bool.false_eq_true, if_false] at hh
        rcases hp : l.loop rest with ⟨hs1, err, l2⟩
        rw [hp] at hh
        simp at hh
        rcases hh with hh | hh
        · subst hh
          exact ⟨rfl, rfl, rfl⟩
        · have := ih l hw hinact (fun e he => henv e (by simp [he]))
          rw [hp] at this
          exact this h hh

/-- C3 counterexample: a LoopWorker whose pause event (id 1) is set, so the
iteration calls _wait_in_loop, which raises; a second iteration is scheduled,
but the loop executes only one iteration and run logs a run error — an
exception inside waitInLoop terminates the loop instead of letting it
continue with the next iteration. -/
theorem loop_wait_error_ends_loop :
    (((LoopProcessor.init (some 0) (some 1) true).run
        [pausedEnv true, pausedEnv false] (fun _ => false)).iters.length = 1)
    ∧ ((LoopProcessor.init (some 0) (some 1) true).run
        [pausedEnv true, pausedEnv false] (fun _ => false)).run_error_logged = true := by
  exact ⟨rfl, rfl⟩

/-- C3 (amended): an exception raised inside workInLoop is caught and logged
and the loop continues with the next iteration; an exception raised inside
waitInLoop is caught by run's outer except (logged as a run error) and
terminates the loop; in both cases nothing propagates out of the Worker and
run still performs stop propagation and afterBody. -/
theorem loop_error_handling (l l1 : LoopProcessor) (env : LoopEnv)
    (rest envs : List LoopEnv) (st : EventStore) (ba bi : Bool)
    (hstop : l.base.is_stopped env.store = false)
    (hreact : l.react_if_activity_changes (l.new_activity_state env.store)
      = (l1, ba, bi)) :
    (l1.is_active = true →
      l.loop (env :: rest) =
        ({ became_active := ba, became_inactive := bi, called_work := true,
           called_wait := false, work_error_logged := env.work_raises }
            :: (l1.loop rest).1,
         (l1.loop rest).2.1, (l1.loop rest).2.2)) ∧
    (l1.is_active = false → env.wait_raises = true →
      l.loop (env :: rest) =
        ([{ became_active := ba, became_inactive := bi, called_work := false,
            called_wait := true, work_error_logged := false }], true, l1)) ∧
    ((l.run envs st).after_body_ran = true ∧ (l.run envs st).stop_propagated = true) := by
  refine ⟨?_, ?_, ?_, ?_⟩
  · intro h1
    rw [LoopProcessor.loop, hstop]
    simp only [Bool.false_eq_true, if_false]
    rw [hreact]
    simp only [h1, if_true]
  · intro h1 h2
    rw [LoopProcessor.loop, hstop]
    simp only [Bool.false_eq_true, if_false]
    rw [hreact]
    simp only [h1, h2, Bool.false_eq_true, if_false, if_true]
  · simp [LoopProcessor.run]
  · simp [LoopProcessor.run]

/-- Witness for C3 (amended) at a concrete worker: pause event set and
waitInLoop raising gives a one-iteration loop ending in the run-error state. -/
theorem loop_error_handling_witness :
    (LoopProcessor.init (some 0) (some 1) true).loop [pausedEnv true] =
      ([{ became_active := false, became_inactive := true, called_work := false,
          called_wait := true, work_error_logged := false }], true,
        { LoopProcessor.init (some 0) (some 1) true with is_active := false }) := by
  have h := loop_error_handling (LoopProcessor.init (some 0) (some 1) true)
      ({ LoopProcessor.init (some 0) (some 1) true with is_active := false })
      (pausedEnv true) [] [] (fun _ => false) false true rfl rfl
  exact h.2.1 rfl rfl

/-- C6: for a LoopWorker with an attached pause event that has just been set,
the next iteration calls waitInLoop (not workInLoop) and fires
becameInactive, and on every later iteration while the event stays set no
edge hook fires and workInLoop is never called; moreover the edge hooks fire
only when the computed activity differs from the stored state. -/
theorem loop_pause_edge_triggered (l : LoopProcessor) (w : Nat) (env : LoopEnv)
    (rest : List LoopEnv)
    (hw : l.is_waiting_event = some w)
    (hactive : l.is_active = true)
    (hstop : l.base.is_stopped env.store = false)
    (hpause : env.store w = true)
    (hrest : ∀ e ∈ rest, e.store w = true) :
    (∃ tl, (l.loop (env :: rest)).1 =
        { became_active := false, became_inactive := true, called_work := false,
          called_wait := true, work_error_logged := false } :: tl ∧
        ∀ h ∈ tl, h.became_inactive = false ∧ h.became_active = false ∧
          h.called_work = false) ∧
    (∀ (m : LoopProcessor) (a : Bool),
      ((m.react_if_activity_changes a).2.1 = true ∨
        (m.react_if_activity_changes a).2.2 = true) → a ≠ m.is_active) := by
  constructor
  · have ha : l.new_activity_state env.store = false := by
      simp [LoopProcessor.new_activity_state, hw, hpause]
    have hr : l.react_if_activity_changes false
        = ({ l with is_active := false }, false, true) := by
      simp [LoopProcessor.react_if_activity_changes, hactive]
    rw [LoopProcessor.loop, hstop]
    simp only [Bool.false_eq_true, if_false]
    rw [ha, hr]
    simp only [Bool.false_eq_true, if_false]
    by_cases hwr : env.wait_raises = true
    · refine ⟨[], ?_, ?_⟩
      · simp [hwr]
      · intro h hh
        simp at hh
    · rw [Bool.not_eq_true] at hwr
      rcases hp : ({ l with is_active := false } : LoopProcessor).loop rest
        with ⟨hs1, err, l2⟩
      refine ⟨hs1, ?_, ?_⟩
      · simp [hwr, hp]
      · intro h hh
        have := loop_all_waiting ({ l with is_active := false }) w rest hw rfl hrest
        rw [hp] at this
        exact this h hh
  · intro m a hfire
    intro hcontra
    rw [react_no_change m a hcontra] at hfire
    simp at hfire

/-- Witness for C6: concrete worker (stop event 0 clear, pause event 1 set)
with one further waiting iteration scheduled. -/
theorem loop_pause_edge_triggered_witness :
    ∃ tl, ((LoopProcessor.init (some 0) (some 1) true).loop
        [pausedEnv false, pausedEnv false]).1 =
      { became_active := false, became_inactive := true, called_work := false,
        called_wait := true, work_error_logged := false } :: tl ∧
      ∀ h ∈ tl, h.became_inactive = false ∧ h.became_active = false ∧
        h.called_work = false := by
  have h := loop_pause_edge_triggered (LoopProcessor.init (some 0) (some 1) true) 1
      (pausedEnv false) [pausedEnv false] rfl rfl rfl rfl
      (by
        intro e he
        rw [List.mem_singleton] at he
        subst he
        rfl)
  exact h.1

/-- The overridden _is_stopped returns the current _really_stop as the exit decision. -/
lemma is_stopped_snd (s : LogQueueStreamProcessor) (g : Bool) (t : Int) :
    (s.is_stopped g t).2 = s.really_stop := by
  cases hg : g <;> cases hn : s.near_to_stop <;>
    simp [LogQueueStreamProcessor.is_stopped, hg, hn]

/-- The overridden _is_stopped never changes _really_stop. -/
lemma is_stopped_really (s : LogQueueStreamProcessor) (g : Bool) (t : Int) :
    (s.is_stopped g t).1.really_stop = s.really_stop := by
  cases hg : g <;> cases hn : s.near_to_stop <;>
    simp [LogQueueStreamProcessor.is_stopped, hg, hn]

/-- Handling a drained record never changes _really_stop. -/
lemma work_record_really (s : LogQueueStreamProcessor) (now : Int) :
    (s.work_in_loop PollResult.record now).1.really_stop = s.really_stop := by
  cases hn : s.near_to_stop <;>
    simp [LogQueueStreamProcessor.work_in_loop, hn]

/-- While every poll drains a record and _really_stop starts False, the drain
loop never exits. -/
lemma drain_records_never_exit (s : LogQueueStreamProcessor)
    (obss : List DrainObs) (hrs : s.really_stop = false)
    (hrec : ∀ o ∈ obss, o.poll = PollResult.record) :
    (s.drain obss).2.1 = false := by
  induction obss generalizing s with
  | nil => simp [LogQueueStreamProcessor.drain]
  | cons o rest ih =>
    rw [LogQueueStreamProcessor.drain]
    rw [is_stopped_snd, hrs]
    simp only [Bool.false_eq_true, if_false]
    have hpoll : o.poll = PollResult.record := hrec o (by simp)
    rw [hpoll]
    exact ih _ (by rw [work_record_really, is_stopped_really, hrs])
      (fun e he => hrec e (by simp [he]))

/-- C4: a QueueDrainWorker that has observed the global stop request never
exits while new messages keep being drained; each drained message resets the
last-message timestamp; _work_in_loop sets the finished flag only on an empty
poll that finds the time since the last drained message above the grace
window; and the loop's exit decision is exactly that flag. -/
theorem drain_grace_window (s : LogQueueStreamProcessor)
    (obss : List DrainObs) (now : Int) :
    (s.really_stop = false → (∀ o ∈ obss, o.poll = PollResult.record) →
      (s.drain obss).2.1 = false) ∧
    (s.near_to_stop = true →
      (s.work_in_loop PollResult.record now).1.last_msg_send_time = some now) ∧
    (∀ poll, s.really_stop = false →
      (s.work_in_loop poll now).1.really_stop = true →
      poll = PollResult.empty ∧ s.near_to_stop = true ∧
        ∃ last, s.last_msg_send_time = some last ∧
          now - last > s.sleep_after_s) ∧
    (∀ g t, (s.is_stopped g t).2 = s.really_stop) := by
  refine ⟨fun hrs hrec => drain_records_never_exit s obss hrs hrec, ?_, ?_, ?_⟩
  · intro hn
    simp [LogQueueStreamProcessor.work_in_loop, hn]
  · intro poll hrs hset
    cases poll with
    | record => rw [work_record_really, hrs] at hset; exact absurd hset (by simp)
    | none_record =>
      simp [LogQueueStreamProcessor.work_in_loop, hrs] at hset
    | empty =>
      refine ⟨rfl, ?_⟩
      by_cases hn : s.near_to_stop = true
      · refine ⟨hn, ?_⟩
        cases hlast : s.last_msg_send_time with
        | none =>
          simp [LogQueueStreamProcessor.work_in_loop, hn, hlast, hrs] at hset
        | some last =>
          refine ⟨last, rfl, ?_⟩
          by_cases hgt : now - last > s.sleep_after_s
          · exact hgt
          · simp [LogQueueStreamProcessor.work_in_loop, hn, hlast, hgt, hrs]
              at hset
      · rw [Bool.not_eq_true] at hn
        simp [LogQueueStreamProcessor.work_in_loop, hn, hrs] at hset
  · intro g t
    exact is_stopped_snd s g t

/-- Witness for C4: a draining worker (grace window 10) drains records at
times 3 and 5 under an active stop request and never exits; a record drained
at time 5 resets the timestamp; and its step sets the finished flag only on
the empty poll conditions. -/
theorem drain_grace_window_witness :
    ((({ near_to_stop := true, really_stop := false, sleep_after_s := 10,
          last_msg_send_time := some 0 } : LogQueueStreamProcessor).drain
        [⟨true, 1, PollResult.record, 3⟩, ⟨true, 4, PollResult.record, 5⟩]).2.1
      = false) ∧
    ((({ near_to_stop := true, really_stop := false, sleep_after_s := 10,
          last_msg_send_time := some 0 } : LogQueueStreamProcessor).work_in_loop
        PollResult.record 5).1.last_msg_send_time = some 5) := by
  have h := drain_grace_window
      ({ near_to_stop := true, really_stop := false, sleep_after_s := 10,
         last_msg_send_time := some 0 } : LogQueueStreamProcessor)
      [⟨true, 1, PollResult.record, 3⟩, ⟨true, 4, PollResult.record, 5⟩] 5
  refine ⟨h.1 rfl ?_, h.2.1 rfl⟩
  intro o ho
  fin_cases ho <;> rfl

/-- C9: the drain worker does not treat the None value pushed by
LogManager.stop_logging as a stop instruction.  On a queue holding only None
(stop event clear, grace window 1): the _work_in_loop step on None logs an
error and leaves the state unchanged, and a two-iteration schedule whose
first poll yields None runs both iterations and never exits the loop. -/
theorem sentinel_does_not_stop :
    ((LogQueueStreamProcessor.init 1).work_in_loop PollResult.none_record 0
      = (LogQueueStreamProcessor.init 1, false, true)) ∧
    (((LogQueueStreamProcessor.init 1).drain
        [⟨false, 0, PollResult.none_record, 0⟩, ⟨false, 1, PollResult.empty, 1⟩]).2.1
      = false) ∧
    (((LogQueueStreamProcessor.init 1).drain
        [⟨false, 0, PollResult.none_record, 0⟩, ⟨false, 1, PollResult.empty, 1⟩]).1.length
      = 2) := by
  exact ⟨rfl, rfl, rfl⟩

/-- Wiring a list of children wires each member. -/
lemma mem_wireList (s w : Option Nat) (c : PWorker) (cs : List PWorker)
    (hc : c ∈ cs) : c.wire s w ∈ PWorker.wireList s w cs := by
  induction cs with
  | nil => simp at hc
  | cons d ds ih =>
    rw [PWorker.wireList]
    rcases List.mem_cons.1 hc with h | h
    · subst h
      exact List.mem_cons_self _ _
    · exact List.mem_cons_of_mem _ (ih h)

/-- C5: wiring tokens on a tree A with children B and C, where C is itself a
tree with child D, assigns A's stop event to B and to C and — through C's own
recursive wiring — to D; a worker that already holds a stop event keeps it
(first assignment wins), and on the Processor itself a later
set_stop_event call is a no-op that returns False (not applied). -/
theorem token_wiring (t : Nat) (wA wC dstop dwait : Option Nat) :
    ((PWorker.runner (some t) wA
        [PWorker.processor none,
         PWorker.runner none wC
           [PWorker.loop_processor dstop dwait]]).set_events_to_processors
      = PWorker.runner (some t) wA
          [PWorker.processor (some t),
           PWorker.runner (some t) wC
             [PWorker.loop_processor (firstWins dstop (some t))
                (firstWins dwait wC)]]) ∧
    (dstop = none → firstWins dstop (some t) = some t) ∧
    (∀ u, dstop = some u → firstWins dstop (some t) = some u) ∧
    (∀ (p : Processor) (e e2 : Nat), p.stop_event = some e →
      p.set_stop_event e2 = (p, false)) := by
  refine ⟨?_, ?_, ?_, ?_⟩
  · simp [PWorker.set_events_to_processors, PWorker.wireList, PWorker.wire,
      firstWins]
  · intro h
    subst h
    rfl
  · intro u h
    subst h
    rfl
  · intro p e e2 he
    simp [Processor.set_stop_event, he]

/-- Witness for C5: D already holding stop event 3 keeps it, and a second
set_stop_event on a Processor holding event 5 is rejected. -/
theorem token_wiring_witness :
    firstWins (some 3) (some 0) = some 3 ∧
    (Processor.init (some 5)).set_stop_event 6 = (Processor.init (some 5), false) := by
  have h := token_wiring 0 (some 1) (some 2) (some 3) none
  exact ⟨h.2.2.1 3 rfl, h.2.2.2 (Processor.init (some 5)) 5 6 rfl⟩

/-- C10: every ProcessorsRunner constructed without an explicit
is_waiting_event argument receives the single Event allocated once when the
class is defined (the import allocates exactly one), so any two such runners
hold the same waiting event; every LoopProcessor child of such a runner that
had no waiting event is wired to that same shared event; and once that event
is set, any LoopProcessor holding it computes activity False — pausing the
children of one such tree pauses the LoopProcessor children of every other
such tree. -/
theorem runner_shared_default_waiting_event (a : PyAlloc)
    (s1 s2 : Option Nat) (ws1 ws2 : List PWorker) (st : EventStore) :
    ((processorsRunnerNew (runnerClassDefault a).1 s1 none ws1).waiting_ev
      = (processorsRunnerNew (runnerClassDefault a).1 s2 none ws2).waiting_ev) ∧
    ((processorsRunnerNew (runnerClassDefault a).1 s1 none ws1).waiting_ev
      = some (runnerClassDefault a).1) ∧
    ((runnerClassDefault a).2.next_event = a.next_event + 1) ∧
    (∀ stw, PWorker.loop_processor stw none ∈ ws1 →
      PWorker.loop_processor (firstWins stw s1) (some (runnerClassDefault a).1)
        ∈ (processorsRunnerNew (runnerClassDefault a).1 s1 none ws1).children) ∧
    (∀ (l : LoopProcessor) (d : Nat), l.is_waiting_event = some d →
      l.new_activity_state (st.set d) = false) := by
  refine ⟨rfl, rfl, rfl, ?_, ?_⟩
  · intro stw hmem
    have h := mem_wireList s1 (some (runnerClassDefault a).1)
      (PWorker.loop_processor stw none) ws1 hmem
    rw [PWorker.wire] at h
    simpa [processorsRunnerNew, PWorker.set_events_to_processors,
      PWorker.children, firstWins] using h
  · intro l d hd
    simp [LoopProcessor.new_activity_state, hd, EventStore.set]

/-- Witness for C10: two argument-less runners over concrete children share
event 0, the LoopProcessor child is wired to it, and setting it pauses. -/
theorem runner_shared_default_waiting_event_witness :
    ((processorsRunnerNew (runnerClassDefault ⟨0⟩).1 (some 7) none
        [PWorker.loop_processor none none]).waiting_ev
      = (processorsRunnerNew (runnerClassDefault ⟨0⟩).1 none none []).waiting_ev) ∧
    (PWorker.loop_processor (some 7) (some 0)
      ∈ (processorsRunnerNew (runnerClassDefault ⟨0⟩).1 (some 7) none
          [PWorker.loop_processor none none]).children) ∧
    ((LoopProcessor.init none (some 0) true).new_activity_state
        (EventStore.set (fun _ => false) 0) = false) := by
  have h := runner_shared_default_waiting_event ⟨0⟩ (some 7) none
    [PWorker.loop_processor none none] [] (fun _ => false)
  refine ⟨h.1, ?_, h.2.2.2.2 (LoopProcessor.init none (some 0) true) 0 rfl⟩
  have h4 := h.2.2.2.1 none (by simp)
  simpa [firstWins] using h4

/-- SignalContext() with the default context name and the two-member
UserSignals enumeration yields defaultCtx. -/
lemma mk_ctx_default : SignalContext.mk_ctx "default" 2 = some defaultCtx := by
  have h : Nat.clog 2 3 ≤ 8 :=
    (Nat.le_pow_iff_clog_le (by norm_num)).1 (by norm_num)
  simp [SignalContext.mk_ctx, get_struct_format, h, defaultCtx]

/-- C7 counterexample: delivering signal id 1 to pid 5 through the default
context performs no lock acquisition — the mailbox write does not happen
under the exclusive lock the claim requires. -/
theorem send_user_signal_write_unlocked :
    writesLocked ((defaultCtx.send_user_signal none 5 1).trace) false = false := by
  rfl

/-- C7 (amended): send_user_signal encodes the id into the context's
fixed-width unsigned representation and writes it to the mailbox file without
taking any lock, and raises the doorbell OS signal on the target only after
the write: the trace is exactly open, write, close, kill; it contains no
lock acquisition; and the write occurs strictly before the kill. -/
theorem send_user_signal_order (ctx : SignalContext) (mb : Mailbox)
    (pid sid : Nat) :
    ((ctx.send_user_signal mb pid sid).trace =
      [SigEv.open_write, SigEv.write_bytes (packBytes ctx.struct_format sid),
       SigEv.close_file, SigEv.kill pid COMMON_SIGNAL]) ∧
    ((ctx.send_user_signal mb pid sid).trace.contains SigEv.lock_exclusive
      = false) ∧
    (∃ pre, (ctx.send_user_signal mb pid sid).trace
        = pre ++ [SigEv.kill pid COMMON_SIGNAL] ∧
      SigEv.write_bytes (packBytes ctx.struct_format sid) ∈ pre) ∧
    ((packBytes ctx.struct_format sid).length = ctx.struct_format) := by
  refine ⟨rfl, ?_, ?_, ?_⟩
  · rfl
  · exact ⟨[SigEv.open_write,
      SigEv.write_bytes (packBytes ctx.struct_format sid), SigEv.close_file],
      rfl, by simp⟩
  · simp [packBytes]

/-- C8: get_signal on an existing mailbox locks, reads, deletes the file
before unlocking (one-shot consume: the mailbox is gone afterwards and a
repeated receive yields no signal), and on a missing mailbox yields none
without raising while on_common_signal dispatches nothing. -/
theorem get_signal_consume_once (ctx : SignalContext) (data : List Nat)
    (cs : Nat) :
    ((ctx.get_signal (some data)).trace =
      [SigEv.open_read, SigEv.lock_exclusive, SigEv.read_all,
       SigEv.remove_file, SigEv.unlock, SigEv.close_file]) ∧
    (([SigEv.open_read, SigEv.lock_exclusive, SigEv.read_all,
        SigEv.remove_file, SigEv.unlock,
        SigEv.close_file].indexOf SigEv.lock_exclusive
        < [SigEv.open_read, SigEv.lock_exclusive, SigEv.read_all,
            SigEv.remove_file, SigEv.unlock,
            SigEv.close_file].indexOf SigEv.read_all ∧
      [SigEv.open_read, SigEv.lock_exclusive, SigEv.read_all,
        SigEv.remove_file, SigEv.unlock,
        SigEv.close_file].indexOf SigEv.read_all
        < [SigEv.open_read, SigEv.lock_exclusive, SigEv.read_all,
            SigEv.remove_file, SigEv.unlock,
            SigEv.close_file].indexOf SigEv.remove_file ∧
      [SigEv.open_read, SigEv.lock_exclusive, SigEv.read_all,
        SigEv.remove_file, SigEv.unlock,
        SigEv.close_file].indexOf SigEv.remove_file
        < [SigEv.open_read, SigEv.lock_exclusive, SigEv.read_all,
            SigEv.remove_file, SigEv.unlock,
            SigEv.close_file].indexOf SigEv.unlock)) ∧
    ((ctx.get_signal (some data)).mailbox = none) ∧
    ((ctx.get_signal ((ctx.get_signal (some data)).mailbox)).ret_val = none) ∧
    (ctx.get_signal none =
      { trace := [SigEv.open_read], mailbox := none, ret_val := none }) ∧
    ((on_common_signal ctx none cs).2 = none) := by
  exact ⟨rfl, ⟨by decide, by decide, by decide⟩, rfl, rfl, rfl, rfl⟩

end ConcurrentHarmony
